/-
Verification of the differential-privacy release engine of the
DiSCS-sLab-Org/differential-privacy repository.

The embedding mirrors `src/app.py` (the function `apply_differential_privacy`
and the `/query` request handler) and the error contract of
`src/fetch_day_attacks.py` (`fetch_attacks_for_day`).

Modelling conventions:
- Attack data is a list of (source IP, count) pairs, counts being the
  non-negative `doc_count` values returned by the collector.
- Real arithmetic is carried out in ℚ.  The numpy Laplace sampler
  `np.random.laplace(loc=0, scale)` produces `scale * z` where `z` is a
  standardized draw (the Laplace family is a scale family); the draw `z`
  is passed explicitly.
- Python `round(x)` is round-half-to-even returning an integer;
  `round(x, 2)` rounds to two decimal places, modelled exactly on ℚ.
- A serialized JSON response is an insertion-ordered association list of
  keys and values, mirroring the dict handed to `jsonify`.
-/
import Mathlib

namespace DPApp

/-- JSON values as produced by the Flask handler via `jsonify`. -/
inductive JVal where
  | jnum : ℚ → JVal
  | jint : ℤ → JVal
  | jstr : String → JVal
  | jbool : Bool → JVal
  | jarr : List JVal → JVal
  | jobj : List (String × JVal) → JVal
deriving Repr

/-- Python `round(q)` with no digit argument: nearest integer, breaking
ties to the even neighbour, as CPython implements for floats. -/
def pyRound (q : ℚ) : ℤ :=
  let f : ℤ := ⌊q⌋
  let r : ℚ := q - f
  if r < 1/2 then f
  else if 1/2 < r then f + 1
  else if Even f then f else f + 1

/-- Python `round(q, 2)`: round to two decimal places, ties to even. -/
def round2 (q : ℚ) : ℚ := (pyRound (q * 100) : ℚ) / 100

/-- Comparison used by `sorted(attack_data, key=lambda x: x[1], reverse=True)`:
record `a` may precede record `b` exactly when its count is at least that
of `b`.  The CPython sort is stable also under `reverse=True`. -/
def countGE (a b : String × ℕ) : Prop := b.2 ≤ a.2

instance : DecidableRel countGE := fun a b =>
  inferInstanceAs (Decidable (b.2 ≤ a.2))

instance : IsTotal (String × ℕ) countGE :=
  ⟨fun a b => (le_total a.2 b.2).symm.imp (fun h => h) (fun h => h)⟩

instance : IsTrans (String × ℕ) countGE :=
  ⟨fun _ _ _ hab hbc => le_trans hbc hab⟩

/-- Line 45 of app.py: `true_count = sum(count for _, count in attack_data)`. -/
def dpTrueCount (attack_data : List (String × ℕ)) : ℕ :=
  (attack_data.map Prod.snd).sum

/-- Line 46 of app.py: `sensitivity = max(count for _, count in attack_data)`.
On the empty list Python `max` would raise, but the caller only reaches this
line for a non-empty collection; folding `max` with base 0 agrees with
Python `max` on every non-empty list of non-negative counts. -/
def dpSensitivity (attack_data : List (String × ℕ)) : ℕ :=
  (attack_data.map Prod.snd).foldr max 0

/-- Line 49 of app.py: `scale = sensitivity / epsilon`. -/
def dpScale (attack_data : List (String × ℕ)) (epsilon : ℚ) : ℚ :=
  (dpSensitivity attack_data : ℚ) / epsilon

/-- Line 50 of app.py: `noise = np.random.laplace(loc=0, scale=scale)`,
written as `scale * z` for the standardized draw `z`. -/
def dpNoiseRaw (attack_data : List (String × ℕ)) (epsilon : ℚ) (z : ℚ) : ℚ :=
  dpScale attack_data epsilon * z

/-- Number of invocations of the random source `np.random.laplace` performed
by `apply_differential_privacy`: the early return for an empty collection
(line 34) makes none; every other path samples exactly once (line 50). -/
def dpDrawCount (attack_data : List (String × ℕ)) : ℕ :=
  if attack_data = [] then 0 else 1

/-- Result dictionary of `apply_differential_privacy`.  The empty-collection
branch (lines 35-42) returns a dict without the `top_attackers` key, so that
field is an `Option`. -/
structure DPResult where
  true_count : ℕ
  noisy_count : ℤ
  sensitivity : ℕ
  noise : ℚ
  noise_scale : ℚ
  num_ips : ℕ
  top_attackers : Option (List (String × ℕ))
deriving Repr, DecidableEq

/-- Lines 23-63 of app.py: the Laplace mechanism applied to the attack
count.  `z` is the standardized Laplace draw consumed at line 50; the
disclosed `noise` and `noise_scale` fields are rounded to 2 decimals
(lines 59-60) while `noisy_count` uses the raw sample (line 53). -/
def apply_differential_privacy (attack_data : List (String × ℕ))
    (epsilon : ℚ) (z : ℚ) : DPResult :=
  if attack_data = [] then
    { true_count := 0, noisy_count := 0, sensitivity := 0,
      noise := 0, noise_scale := 0, num_ips := 0, top_attackers := none }
  else
    let true_count := dpTrueCount attack_data
    let sensitivity := dpSensitivity attack_data
    let scale := dpScale attack_data epsilon
    let noise := dpNoiseRaw attack_data epsilon z
    { true_count := true_count,
      noisy_count := max 0 (pyRound ((true_count : ℚ) + noise)),
      sensitivity := sensitivity,
      noise := round2 noise,
      noise_scale := round2 scale,
      num_ips := attack_data.length,
      top_attackers :=
        some ((List.insertionSort countGE attack_data).take 5) }

/-- Outcome of one `/query` request: the serialized response body (an
insertion-ordered key/value list), the HTTP status, the number of calls to
`fetch_attacks_for_day`, and the number of draws from the random source. -/
structure QueryOutcome where
  resp : List (String × JVal)
  status : ℕ
  fetchCalls : ℕ
  drawCalls : ℕ
deriving Repr

/-- Lines 72-129 of app.py: the `/query` handler.
`dateValid` is the outcome of `datetime.strptime(date_str, "%Y-%m-%d")`;
`fetch` is the collector call, which either yields the attack data or
raises `Exception("Elasticsearch query failed: " + msg)`
(fetch_day_attacks.py lines 88-91), caught by the `except` clause of the handler
(lines 126-129).  In debug mode with an empty collection the dict access
`result["top_attackers"]` raises `KeyError` (line 118), likewise caught by
the outer `except` and turned into an error response. -/
def query (debugMode : Bool) (dateStr : String) (dateValid : Bool)
    (epsilon : ℚ) (fetch : Except String (List (String × ℕ)))
    (z : ℚ) (now : String) : QueryOutcome :=
  if ¬ dateValid then
    { resp := [("error", JVal.jstr "Invalid date format. Use YYYY-MM-DD")],
      status := 400, fetchCalls := 0, drawCalls := 0 }
  else if epsilon ≤ 0 ∨ 10 < epsilon then
    { resp := [("error", JVal.jstr "Epsilon must be between 0.1 and 10")],
      status := 400, fetchCalls := 0, drawCalls := 0 }
  else
    match fetch with
    | Except.error msg =>
      { resp := [("error", JVal.jstr ("Elasticsearch query failed: " ++ msg))],
        status := 500, fetchCalls := 1, drawCalls := 0 }
    | Except.ok attack_data =>
      let result := apply_differential_privacy attack_data epsilon z
      let base : List (String × JVal) :=
        [("success", JVal.jbool true),
         ("date", JVal.jstr dateStr),
         ("epsilon", JVal.jnum epsilon),
         ("query_time", JVal.jstr now),
         ("noisy_count", JVal.jint result.noisy_count),
         ("debug_mode", JVal.jbool debugMode)]
      if debugMode then
        match result.top_attackers with
        | none =>
          { resp := [("error", JVal.jstr "KeyError: top_attackers")],
            status := 500, fetchCalls := 1,
            drawCalls := dpDrawCount attack_data }
        | some tas =>
          { resp := base ++
              [("sensitivity", JVal.jint (result.sensitivity : ℤ)),
               ("noise", JVal.jnum result.noise),
               ("noise_scale", JVal.jnum result.noise_scale),
               ("num_ips", JVal.jint (result.num_ips : ℤ)),
               ("true_count", JVal.jint (result.true_count : ℤ)),
               ("top_attackers", JVal.jarr (tas.map fun p =>
                  JVal.jobj [("ip", JVal.jstr p.1),
                             ("count", JVal.jint (p.2 : ℤ))]))],
            status := 200, fetchCalls := 1,
            drawCalls := dpDrawCount attack_data }
      else
        { resp := base, status := 200, fetchCalls := 1,
          drawCalls := dpDrawCount attack_data }

/-! ### Numeric helper lemmas -/

theorem pyRound_intCast (n : ℤ) : pyRound (n : ℚ) = n := by
  unfold pyRound
  norm_num

theorem le_foldr_max {c : ℕ} : ∀ {l : List ℕ}, c ∈ l → c ≤ l.foldr max 0
  | [], h => absurd h (List.not_mem_nil c)
  | a :: l, h => by
    rcases List.mem_cons.mp h with h | h
    · subst h; exact le_max_left _ _
    · exact le_trans (le_foldr_max h) (le_max_right _ _)

theorem foldr_max_mem : ∀ {l : List ℕ}, l ≠ [] → l.foldr max 0 ∈ l
  | [], h => absurd rfl h
  | [a], _ => by simp
  | a :: b :: l, _ => by
    rcases le_total a ((b :: l).foldr max 0) with h | h
    · rw [List.foldr_cons, max_eq_right h]
      exact List.mem_cons_of_mem _ (foldr_max_mem (by simp))
    · rw [List.foldr_cons, max_eq_left h]
      exact List.mem_cons_self _ _

theorem dpTrueCount_eq_zero {xs : List (String × ℕ)}
    (h : dpSensitivity xs = 0) : dpTrueCount xs = 0 := by
  unfold dpTrueCount
  apply List.sum_eq_zero
  intro c hc
  exact Nat.le_zero.mp (by rw [← h]; exact le_foldr_max hc)

/-! ### Stability of the sort used for top_attackers -/

theorem filter_orderedInsert_of_eq (c : ℕ) (x : String × ℕ) (hx : x.2 = c) :
    ∀ l : List (String × ℕ),
      (List.orderedInsert countGE x l).filter (fun a => a.2 == c) =
        x :: l.filter (fun a => a.2 == c)
  | [] => by simp [List.orderedInsert, hx]
  | y :: l => by
    by_cases hr : countGE x y
    · simp [List.orderedInsert, hr, List.filter_cons, hx]
    · have hxy : x.2 < y.2 := Nat.lt_of_not_le hr
      have hy : ¬ (y.2 = c) := by omega
      simp [List.orderedInsert, hr, List.filter_cons, hy,
        filter_orderedInsert_of_eq c x hx l]

theorem filter_orderedInsert_of_ne (c : ℕ) (x : String × ℕ) (hx : ¬ x.2 = c) :
    ∀ l : List (String × ℕ),
      (List.orderedInsert countGE x l).filter (fun a => a.2 == c) =
        l.filter (fun a => a.2 == c)
  | [] => by simp [List.orderedInsert, hx]
  | y :: l => by
    by_cases hr : countGE x y
    · simp [List.orderedInsert, hr, List.filter_cons, hx]
    · simp [List.orderedInsert, hr, List.filter_cons,
        filter_orderedInsert_of_ne c x hx l]

theorem filter_insertionSort (c : ℕ) :
    ∀ l : List (String × ℕ),
      (List.insertionSort countGE l).filter (fun a => a.2 == c) =
        l.filter (fun a => a.2 == c)
  | [] => rfl
  | x :: l => by
    by_cases hx : x.2 = c
    · rw [List.insertionSort, filter_orderedInsert_of_eq c x hx,
        filter_insertionSort c l, List.filter_cons]
      simp [hx]
    · rw [List.insertionSort, filter_orderedInsert_of_ne c x hx,
        filter_insertionSort c l, List.filter_cons]
      simp [hx]

theorem pyRound_zero : pyRound 0 = 0 := by
  simpa using pyRound_intCast 0

/-! ### Claim theorems -/

/-- C6: for an empty collection and any epsilon, the release result is
exactly the all-zero record (with no top_attackers key present), and no
call is made to the random source. -/
theorem c6_empty_collection_zero_result (epsilon z : ℚ) :
    apply_differential_privacy [] epsilon z =
      { true_count := 0, noisy_count := 0, sensitivity := 0, noise := 0,
        noise_scale := 0, num_ips := 0, top_attackers := none } ∧
    dpDrawCount [] = 0 :=
  ⟨rfl, rfl⟩

/-- C1 (code bug evidence): a debug-mode query over an empty collection
does not produce a successful response with all debug fields; the
empty-collection result dict lacks the top_attackers key, so the debug
response shaping raises KeyError and the handler returns an error
response with HTTP status 500. -/
theorem c1_debug_empty_collection_errors :
    query true "2025-01-15" true 1 (Except.ok []) 0 "2025-01-15 12:00:00" =
      { resp := [("error", JVal.jstr "KeyError: top_attackers")],
        status := 500, fetchCalls := 1, drawCalls := 0 } := by
  rfl

/-- C2 (counterexample): a non-empty collection whose every count is zero
has sensitivity 0, yet the release stage still consumes one draw from the
random source (np.random.laplace is called with scale 0), contradicting
the claim that no draw occurs whenever sensitivity = 0. -/
theorem c2_zero_sensitivity_draw_counterexample :
    dpSensitivity [("10.0.0.1", 0)] = 0 ∧ dpDrawCount [("10.0.0.1", 0)] = 1 :=
  ⟨rfl, rfl⟩

/-- C2 (amended): for every collection with sensitivity 0, the raw noise is
0, noisyCount equals trueCount, and the whole result is independent of the
sampler draw; however, only the empty collection skips the sampler — a
non-empty all-zero collection still consumes exactly one draw (with scale
0, which yields noise 0). -/
theorem c2_zero_sensitivity_short_circuit (xs : List (String × ℕ))
    (epsilon z zalt : ℚ) (heps : 0 < epsilon) (hs : dpSensitivity xs = 0) :
    dpNoiseRaw xs epsilon z = 0 ∧
    (apply_differential_privacy xs epsilon z).noisy_count =
      ((apply_differential_privacy xs epsilon z).true_count : ℤ) ∧
    apply_differential_privacy xs epsilon z =
      apply_differential_privacy xs epsilon zalt ∧
    dpDrawCount xs = (if xs = [] then 0 else 1) := by
  have hscale : dpScale xs epsilon = 0 := by
    unfold dpScale; rw [hs]; simp
  have hnr : ∀ w : ℚ, dpNoiseRaw xs epsilon w = 0 := fun w => by
    unfold dpNoiseRaw; rw [hscale]; ring
  refine ⟨hnr z, ?_, ?_, rfl⟩
  · by_cases hne : xs = []
    · subst hne; simp [apply_differential_privacy]
    · have htc : dpTrueCount xs = 0 := dpTrueCount_eq_zero hs
      simp [apply_differential_privacy, hne, hnr, htc, pyRound_zero]
  · by_cases hne : xs = []
    · subst hne; rfl
    · simp [apply_differential_privacy, hne, hnr]

/-- C2 witness: the amended theorem instantiated at the concrete all-zero
collection, epsilon 1 and two distinct draws. -/
theorem c2_zero_sensitivity_short_circuit_witness :
    (0 : ℚ) < 1 ∧ dpSensitivity [("10.0.0.1", 0)] = 0 ∧
    dpDrawCount [("10.0.0.1", 0)] = (if ([("10.0.0.1", 0)] :
        List (String × ℕ)) = [] then 0 else 1) :=
  ⟨by norm_num, rfl,
    (c2_zero_sensitivity_short_circuit [("10.0.0.1", 0)] 1 7 3
      (by norm_num) rfl).2.2.2⟩

/-- C4: for every non-empty collection and epsilon > 0, the sensitivity
field is the maximum count across all records (it is one of the counts and
bounds every count), the sampling scale is exactly sensitivity / epsilon,
and the raw Laplace perturbation is exactly that scale times the
standardized draw. -/
theorem c4_sensitivity_is_max_and_scale_exact (xs : List (String × ℕ))
    (hne : xs ≠ []) (epsilon z : ℚ) (heps : 0 < epsilon) :
    ((apply_differential_privacy xs epsilon z).sensitivity ∈
        xs.map Prod.snd ∧
      ∀ c ∈ xs.map Prod.snd,
        c ≤ (apply_differential_privacy xs epsilon z).sensitivity) ∧
    dpScale xs epsilon =
      ((apply_differential_privacy xs epsilon z).sensitivity : ℚ) / epsilon ∧
    dpNoiseRaw xs epsilon z =
      (((apply_differential_privacy xs epsilon z).sensitivity : ℚ) / epsilon)
        * z := by
  have hsf : (apply_differential_privacy xs epsilon z).sensitivity =
      dpSensitivity xs := by
    simp [apply_differential_privacy, hne]
  refine ⟨⟨?_, ?_⟩, ?_, ?_⟩
  · rw [hsf]
    exact foldr_max_mem (by simpa using hne)
  · intro c hc
    rw [hsf]
    exact le_foldr_max hc
  · rw [hsf]; rfl
  · rw [hsf]; rfl

/-- C4 witness: the spec example collection, epsilon 1, draw 0. -/
theorem c4_sensitivity_is_max_and_scale_exact_witness :
    ([("1.2.3.4", 100), ("5.6.7.8", 20)] : List (String × ℕ)) ≠ [] ∧
    (0 : ℚ) < 1 ∧
    (apply_differential_privacy [("1.2.3.4", 100), ("5.6.7.8", 20)] 1 0).sensitivity ∈
      ([("1.2.3.4", 100), ("5.6.7.8", 20)] : List (String × ℕ)).map Prod.snd :=
  ⟨by simp, by norm_num,
    (c4_sensitivity_is_max_and_scale_exact [("1.2.3.4", 100), ("5.6.7.8", 20)]
      (by simp) 1 0 (by norm_num)).1.1⟩

/-- C5: for every collection, epsilon > 0 and draw, the noisy count equals
max(0, round(trueCount + noise)) where trueCount is the exact sum of the
counts and noise is the raw Laplace sample, and the noisy count is a
non-negative integer. -/
theorem c5_noisy_count_clamped_round (xs : List (String × ℕ))
    (epsilon z : ℚ) (heps : 0 < epsilon) :
    (apply_differential_privacy xs epsilon z).noisy_count =
      max 0 (pyRound (((xs.map Prod.snd).sum : ℚ) + dpNoiseRaw xs epsilon z)) ∧
    0 ≤ (apply_differential_privacy xs epsilon z).noisy_count ∧
    (apply_differential_privacy xs epsilon z).true_count =
      (xs.map Prod.snd).sum := by
  by_cases hne : xs = []
  · subst hne
    have hnr : dpNoiseRaw [] epsilon z = 0 := by
      unfold dpNoiseRaw dpScale dpSensitivity; simp
    simp [apply_differential_privacy, hnr, pyRound_zero]
  · refine ⟨?_, ?_, ?_⟩
    · simp [apply_differential_privacy, hne, dpTrueCount]
    · simp only [apply_differential_privacy, hne, if_neg]
      exact le_max_left 0 _
    · simp [apply_differential_privacy, hne, dpTrueCount]

/-- C5 witness: the spec example collection, epsilon 1, draw 0. -/
theorem c5_noisy_count_clamped_round_witness :
    (0 : ℚ) < 1 ∧
    0 ≤ (apply_differential_privacy [("1.2.3.4", 100), ("5.6.7.8", 20)] 1 0).noisy_count :=
  ⟨by norm_num,
    (c5_noisy_count_clamped_round [("1.2.3.4", 100), ("5.6.7.8", 20)] 1 0
      (by norm_num)).2.1⟩

/-- C8: for every non-empty collection, top_attackers is the first five
elements of a stable descending arrangement of the collection: a
permutation of the input, sorted so that counts are non-increasing, in
which the records carrying any fixed count appear exactly in their
original input order; its length is min 5 (length of the input). -/
theorem c8_top_contributors_stable_top5 (xs : List (String × ℕ))
    (hne : xs ≠ []) (epsilon z : ℚ) (heps : 0 < epsilon) :
    ∃ s : List (String × ℕ),
      (apply_differential_privacy xs epsilon z).top_attackers =
        some (s.take 5) ∧
      s.Perm xs ∧
      List.Sorted countGE s ∧
      (∀ c : ℕ, s.filter (fun a => a.2 == c) =
        xs.filter (fun a => a.2 == c)) ∧
      (s.take 5).length = min 5 xs.length := by
  refine ⟨List.insertionSort countGE xs, ?_,
    List.perm_insertionSort countGE xs,
    List.sorted_insertionSort countGE xs,
    fun c => filter_insertionSort c xs, ?_⟩
  · simp [apply_differential_privacy, hne]
  · rw [List.length_take, List.length_insertionSort]

/-- C8 witness: the spec example collection, epsilon 1, draw 0. -/
theorem c8_top_contributors_stable_top5_witness :
    ([("1.2.3.4", 100), ("5.6.7.8", 20)] : List (String × ℕ)) ≠ [] ∧
    (0 : ℚ) < 1 ∧
    ∃ s : List (String × ℕ),
      (apply_differential_privacy [("1.2.3.4", 100), ("5.6.7.8", 20)] 1 0).top_attackers =
        some (s.take 5) ∧
      s.Perm [("1.2.3.4", 100), ("5.6.7.8", 20)] ∧
      List.Sorted countGE s ∧
      (∀ c : ℕ, s.filter (fun a => a.2 == c) =
        ([("1.2.3.4", 100), ("5.6.7.8", 20)] :
          List (String × ℕ)).filter (fun a => a.2 == c)) ∧
      (s.take 5).length = min 5 ([("1.2.3.4", 100), ("5.6.7.8", 20)] :
        List (String × ℕ)).length :=
  ⟨by simp, by norm_num,
    c8_top_contributors_stable_top5 [("1.2.3.4", 100), ("5.6.7.8", 20)]
      (by simp) 1 0 (by norm_num)⟩

/-- C10: for every non-empty collection, the disclosed noise and
noise_scale fields are the raw values rounded to two decimal places while
noisy_count is computed from the unrounded sample; and at a concrete draw
(collection [(ip, 100)], epsilon 1, raw noise 0.504) recomputing
max(0, round(trueCount + disclosed noise)) gives 100 while the disclosed
noisy_count is 101. -/
theorem c10_disclosed_fields_rounded (xs : List (String × ℕ))
    (hne : xs ≠ []) (epsilon z : ℚ) (heps : 0 < epsilon) :
    ((apply_differential_privacy xs epsilon z).noise =
        round2 (dpNoiseRaw xs epsilon z) ∧
      (apply_differential_privacy xs epsilon z).noise_scale =
        round2 (dpScale xs epsilon) ∧
      (apply_differential_privacy xs epsilon z).noisy_count =
        max 0 (pyRound ((dpTrueCount xs : ℚ) + dpNoiseRaw xs epsilon z))) ∧
    ((apply_differential_privacy [("1.2.3.4", 100)] 1 (63/12500)).noisy_count
        = 101 ∧
      max 0 (pyRound
        (((apply_differential_privacy [("1.2.3.4", 100)] 1 (63/12500)).true_count : ℚ) +
          (apply_differential_privacy [("1.2.3.4", 100)] 1 (63/12500)).noise))
        = 100) := by
  have happ : apply_differential_privacy [("1.2.3.4", 100)] 1 (63/12500) =
      { true_count := 100, noisy_count := 101, sensitivity := 100,
        noise := 1/2, noise_scale := 100, num_ips := 1,
        top_attackers := some [("1.2.3.4", 100)] } := by
    have h1 : pyRound ((12563/125 : ℚ)) = 101 := by
      unfold pyRound; norm_num
    have h2 : pyRound ((252/5 : ℚ)) = 50 := by
      unfold pyRound; norm_num
    have h3 : pyRound ((10000 : ℚ)) = 10000 := by
      unfold pyRound; norm_num
    unfold apply_differential_privacy dpNoiseRaw dpScale dpSensitivity
      dpTrueCount round2
    rw [if_neg (by simp)]
    simp only [List.map_cons, List.map_nil, List.foldr, List.sum_cons,
      List.sum_nil, Nat.cast_ofNat, List.length_cons, List.length_nil]
    norm_num [h1, h2, h3]
  constructor
  · refine ⟨?_, ?_, ?_⟩ <;> simp [apply_differential_privacy, hne]
  · have h4 : pyRound ((100 : ℚ) + 1/2) = 100 := by
      unfold pyRound; norm_num [Int.even_iff]
    rw [happ]
    refine ⟨rfl, ?_⟩
    show max 0 (pyRound (((100 : ℕ) : ℚ) + 1/2)) = 100
    rw [show (((100 : ℕ) : ℚ)) = (100 : ℚ) by norm_num, h4]
    rfl

/-- C10 witness: the rounding equations instantiated at the concrete
single-record collection. -/
theorem c10_disclosed_fields_rounded_witness :
    ([("1.2.3.4", 100)] : List (String × ℕ)) ≠ [] ∧
    (0 : ℚ) < 1 ∧
    (apply_differential_privacy [("1.2.3.4", 100)] 1 (63/12500)).noise =
      round2 (dpNoiseRaw [("1.2.3.4", 100)] 1 (63/12500)) :=
  ⟨by simp, by norm_num,
    (c10_disclosed_fields_rounded [("1.2.3.4", 100)] (by simp) 1 (63/12500)
      (by norm_num)).1.1⟩

/-- Shape lemma: in production mode the serialized response keys are
either exactly the error shape or exactly the six success keys. -/
theorem query_production_keys_shape (dateStr now : String) (dateValid : Bool)
    (epsilon : ℚ) (fetch : Except String (List (String × ℕ))) (z : ℚ) :
    (query false dateStr dateValid epsilon fetch z now).resp.map Prod.fst =
      ["error"] ∨
    (query false dateStr dateValid epsilon fetch z now).resp.map Prod.fst =
      ["success", "date", "epsilon", "query_time", "noisy_count",
       "debug_mode"] := by
  rcases fetch with msg | xs
  · unfold query
    split_ifs <;> simp_all
  · unfold query
    split_ifs <;> simp_all

/-- C3: in production mode the full key set of the serialized response
never contains any of the six sensitive keys, and a successfully served
query yields exactly the keys success, date, epsilon, query_time,
noisy_count, debug_mode. -/
theorem c3_production_mode_key_set (dateStr now : String) (dateValid : Bool)
    (epsilon : ℚ) (fetch : Except String (List (String × ℕ))) (z : ℚ) :
    (∀ k ∈ (["true_count", "sensitivity", "noise", "noise_scale",
        "num_ips", "top_attackers"] : List String),
      k ∉ (query false dateStr dateValid epsilon fetch z now).resp.map
        Prod.fst) ∧
    (dateValid = true → 0 < epsilon → epsilon ≤ 10 →
      ∀ xs, fetch = Except.ok xs →
        (query false dateStr dateValid epsilon fetch z now).resp.map
          Prod.fst =
          ["success", "date", "epsilon", "query_time", "noisy_count",
           "debug_mode"]) := by
  constructor
  · intro k hk
    rcases query_production_keys_shape dateStr now dateValid epsilon fetch z
      with h | h <;> rw [h] <;> fin_cases hk <;> decide
  · intro hd h0 h10 xs hfx
    subst hd hfx
    unfold query
    rw [if_neg (by simp), if_neg (by push_neg; exact ⟨h0, h10⟩)]
    simp

/-- C3 witness: the key-set facts at a concrete production-mode request. -/
theorem c3_production_mode_key_set_witness :
    "true_count" ∉ (query false "2025-01-15" true 1
        (Except.ok [("1.2.3.4", 5)]) 0 "t").resp.map Prod.fst ∧
    (query false "2025-01-15" true 1 (Except.ok [("1.2.3.4", 5)]) 0
        "t").resp.map Prod.fst =
      ["success", "date", "epsilon", "query_time", "noisy_count",
       "debug_mode"] :=
  ⟨(c3_production_mode_key_set "2025-01-15" "t" true 1
      (Except.ok [("1.2.3.4", 5)]) 0).1 "true_count" (by decide),
    (c3_production_mode_key_set "2025-01-15" "t" true 1
      (Except.ok [("1.2.3.4", 5)]) 0).2 rfl (by norm_num) (by norm_num)
      [("1.2.3.4", 5)] rfl⟩

/-- C7: every request whose epsilon is non-positive or above 10 is
answered with an error response, with no call to the collector and no
draw from the random source (so epsilon is never silently clamped). -/
theorem c7_invalid_epsilon_rejected_before_fetch (debugMode : Bool)
    (dateStr now : String) (dateValid : Bool) (epsilon : ℚ)
    (fetch : Except String (List (String × ℕ))) (z : ℚ)
    (h : epsilon ≤ 0 ∨ 10 < epsilon) :
    (query debugMode dateStr dateValid epsilon fetch z now).resp.map
      Prod.fst = ["error"] ∧
    (query debugMode dateStr dateValid epsilon fetch z now).fetchCalls = 0 ∧
    (query debugMode dateStr dateValid epsilon fetch z now).drawCalls = 0 := by
  unfold query
  by_cases hd : dateValid = true
  · rw [if_neg (by simp [hd]), if_pos h]
    exact ⟨rfl, rfl, rfl⟩
  · rw [if_pos (by simpa using hd)]
    exact ⟨rfl, rfl, rfl⟩

/-- C7 witness: a concrete request with epsilon 20. -/
theorem c7_invalid_epsilon_rejected_before_fetch_witness :
    ((20 : ℚ) ≤ 0 ∨ (10 : ℚ) < 20) ∧
    (query false "2025-01-15" true 20 (Except.ok [("1.2.3.4", 5)]) 0
        "t").fetchCalls = 0 :=
  ⟨Or.inr (by norm_num),
    (c7_invalid_epsilon_rejected_before_fetch false "2025-01-15" "t" true 20
      (Except.ok [("1.2.3.4", 5)]) 0 (Or.inr (by norm_num))).2.1⟩

/-- Shape lemma for any mode: the response either is exactly the error
shape or does not carry the error key at all, and the collector is called
at most once. -/
theorem query_error_shape (debugMode : Bool) (dateStr now : String)
    (dateValid : Bool) (epsilon : ℚ)
    (fetch : Except String (List (String × ℕ))) (z : ℚ) :
    ((query debugMode dateStr dateValid epsilon fetch z now).resp.map
        Prod.fst = ["error"] ∨
      "error" ∉ (query debugMode dateStr dateValid epsilon fetch z
        now).resp.map Prod.fst) ∧
    (query debugMode dateStr dateValid epsilon fetch z now).fetchCalls ≤ 1 := by
  unfold query
  by_cases hd : dateValid = true
  · rw [if_neg (by simp [hd])]
    by_cases he : epsilon ≤ 0 ∨ 10 < epsilon
    · rw [if_pos he]
      exact ⟨Or.inl rfl, by norm_num⟩
    · rw [if_neg he]
      rcases fetch with msg | xs
      · exact ⟨Or.inl rfl, by norm_num⟩
      · cases hdm : debugMode
        · refine ⟨Or.inr ?_, ?_⟩ <;> simp
        · rcases hta : (apply_differential_privacy xs epsilon z).top_attackers
            with _ | tas
          · refine ⟨Or.inl ?_, ?_⟩ <;> simp [hta]
          · refine ⟨Or.inr ?_, ?_⟩ <;> simp [hta]
  · rw [if_pos (by simpa using hd)]
    exact ⟨Or.inl rfl, by norm_num⟩

/-- C9: every failing request is answered with the shape
(error, message) alone — any response carrying the error key carries no
other key — the collector is never called more than once, and a collector
failure in a validated request yields exactly the propagated error message
with a single fetch and no retry. -/
theorem c9_error_shape_and_no_retry (debugMode : Bool)
    (dateStr now : String) (dateValid : Bool) (epsilon : ℚ)
    (fetch : Except String (List (String × ℕ))) (z : ℚ) :
    ((query debugMode dateStr dateValid epsilon fetch z now).fetchCalls
      ≤ 1) ∧
    ("error" ∈ (query debugMode dateStr dateValid epsilon fetch z
        now).resp.map Prod.fst →
      (query debugMode dateStr dateValid epsilon fetch z now).resp.map
        Prod.fst = ["error"]) ∧
    (∀ msg, dateValid = true → 0 < epsilon → epsilon ≤ 10 →
      fetch = Except.error msg →
        (query debugMode dateStr dateValid epsilon fetch z now).resp =
          [("error",
            JVal.jstr ("Elasticsearch query failed: " ++ msg))] ∧
        (query debugMode dateStr dateValid epsilon fetch z
          now).fetchCalls = 1) := by
  refine ⟨(query_error_shape debugMode dateStr now dateValid epsilon fetch
    z).2, ?_, ?_⟩
  · intro hmem
    rcases (query_error_shape debugMode dateStr now dateValid epsilon fetch
      z).1 with h | h
    · exact h
    · exact absurd hmem h
  · intro msg hd h0 h10 hfx
    subst hd hfx
    unfold query
    rw [if_neg (by simp), if_neg (by push_neg; exact ⟨h0, h10⟩)]
    exact ⟨rfl, rfl⟩

/-- C9 witness: a concrete collector failure on a validated request. -/
theorem c9_error_shape_and_no_retry_witness :
    (query false "2025-01-15" true 1
        (Except.error "backend unreachable") 0 "t").resp =
      [("error",
        JVal.jstr ("Elasticsearch query failed: " ++
          "backend unreachable"))] ∧
    (query false "2025-01-15" true 1
        (Except.error "backend unreachable") 0 "t").fetchCalls = 1 :=
  (c9_error_shape_and_no_retry false "2025-01-15" "t" true 1
    (Except.error "backend unreachable") 0).2.2 "backend unreachable" rfl
    (by norm_num) (by norm_num) rfl

end DPApp
